import Mathlib

/-!
Formal model of the Expense-Tracker-System-Backend repository (a Node/Express/
Mongoose web API).  The JavaScript controllers are embedded shallowly:

* Mongo documents become Lean structures; a collection is a `List` of documents.
* Each controller handler becomes a pure function from its inputs (the store,
  the authenticated requester id, the parsed request body) to an explicit
  result value plus the updated store.
* JS numbers holding money are modelled as `ℚ`; JS `Date` values as a
  year/month/day triple compared lexicographically; absent JSON fields as
  `Option`.
* External collaborators (JWT verification, Mongo id generation, the HTTP
  clock, the OpenAI/Gemini calls, Cloudinary) are passed in as explicit
  parameters, mirroring the repository's own boundary with them.

File layout: all definitions first, then all theorems.
-/

namespace ExpenseTracker

/-- Calendar instant as the JS code observes it through `Date`:
`year` is the full year (`getFullYear`), `month` is 0-11 (`getMonth`),
`day` is the day of month.  Chronological order of real calendar dates is
lexicographic on (year, month, day). -/
structure Date where
  year : Nat
  month : Nat
  day : Nat
  deriving DecidableEq, Repr

/-- Strict chronological order on dates (lexicographic), the order `moment`
and Mongo use when comparing the underlying timestamps. -/
def dateLt (a b : Date) : Bool :=
  Nat.blt a.year b.year ||
    (a.year == b.year &&
      (Nat.blt a.month b.month || (a.month == b.month && Nat.blt a.day b.day)))

/-- A transaction document as the controllers manipulate it in memory.
Income and Expense documents are structurally identical here (the spec calls
the two variants structurally identical); the Expense schema in
`src/models/Expense.js` does not declare `title`/`description`, but
`expenseController.js` reads and writes both on the in-memory document, so the
embedding keeps them.  `user` is the owning account's id (Mongo ObjectId,
modelled as a string). -/
structure TxRec where
  id : String
  user : String
  title : String
  amount : ℚ
  category : String
  description : String
  date : Date
  createdAt : Date
  deriving DecidableEq, Repr

/-- Model of `Model.findById(id)` over a collection. -/
def findById (store : List TxRec) (id : String) : Option TxRec :=
  store.find? (fun r => r.id == id)

/-- Outcome of a by-id transaction operation, following the repository's
responses: `notFound` is the 404 "not found" reply, `forbidden` is the 401
"Not authorized" reply sent when the record belongs to a different account
(the spec's `Forbidden`, "401/403 per endpoint"), `ok` is the success reply. -/
inductive OpResult (α : Type) where
  | notFound
  | forbidden
  | ok (val : α)
  deriving DecidableEq, Repr

/-- Model of `getExpense` (`src/controllers/expenseController.js` lines
117-133): fetch by id, 404 when absent, 401 when owned by another account,
else return the record. -/
def getExpense (store : List TxRec) (id requester : String) : OpResult TxRec :=
  match findById store id with
  | none => .notFound
  | some e => if e.user ≠ requester then .forbidden else .ok e

/-- Model of `getIncome` (`src/unnamed/part_002` lines 128-145), same shape
as `getExpense`. -/
def getIncome (store : List TxRec) (id requester : String) : OpResult TxRec :=
  match findById store id with
  | none => .notFound
  | some i => if i.user ≠ requester then .forbidden else .ok i

/-- Parsed `req.body` of an update request.  `none` models an absent JSON
field (`undefined` after destructuring). -/
structure UpdateBody where
  title : Option String := none
  amount : Option ℚ := none
  category : Option String := none
  description : Option String := none
  date : Option Date := none
  deriving DecidableEq, Repr

/-- The empty partial field set. -/
def emptyUpdate : UpdateBody := {}

/-- Field application of `updateExpense` (`expenseController.js` lines 94-98):
`expense.title = title || expense.title` keeps the old value when the
provided one is absent or falsy (empty string / zero amount), while
`expense.description = description !== undefined ? description : ...` applies
any provided value, empty included.  A provided date value is a truential
(truthy) JS value, so presence alone applies it. -/
def applyExpenseUpdate (b : UpdateBody) (e : TxRec) : TxRec :=
  { e with
    title := match b.title with
      | some t => if t = "" then e.title else t
      | none => e.title
    amount := match b.amount with
      | some a => if a = 0 then e.amount else a
      | none => e.amount
    category := match b.category with
      | some c => if c = "" then e.category else c
      | none => e.category
    description := match b.description with
      | some d => d
      | none => e.description
    date := match b.date with
      | some d => d
      | none => e.date }

/-- Field application of `updateIncome` (`src/unnamed/part_002` lines
102-106); the income controller's code is line-for-line the same as the
expense one. -/
def applyIncomeUpdate (b : UpdateBody) (i : TxRec) : TxRec :=
  { i with
    title := match b.title with
      | some t => if t = "" then i.title else t
      | none => i.title
    amount := match b.amount with
      | some a => if a = 0 then i.amount else a
      | none => i.amount
    category := match b.category with
      | some c => if c = "" then i.category else c
      | none => i.category
    description := match b.description with
      | some d => d
      | none => i.description
    date := match b.date with
      | some d => d
      | none => i.date }

/-- Model of `updateExpense` (`expenseController.js` lines 80-115): fetch by
id (404 when absent), ownership check (401), then apply the partial fields
and `save()` the document back into the collection. -/
def updateExpense (store : List TxRec) (id requester : String) (b : UpdateBody) :
    OpResult TxRec × List TxRec :=
  match findById store id with
  | none => (.notFound, store)
  | some e =>
    if e.user ≠ requester then (.forbidden, store)
    else
      let e2 := applyExpenseUpdate b e
      (.ok e2, store.map (fun r => if r.id == id then e2 else r))

/-- Model of `updateIncome` (`src/unnamed/part_002` lines 86-123). -/
def updateIncome (store : List TxRec) (id requester : String) (b : UpdateBody) :
    OpResult TxRec × List TxRec :=
  match findById store id with
  | none => (.notFound, store)
  | some i =>
    if i.user ≠ requester then (.forbidden, store)
    else
      let i2 := applyIncomeUpdate b i
      (.ok i2, store.map (fun r => if r.id == id then i2 else r))

/-- Model of `deleteExpense` (`expenseController.js` lines 32-49): fetch by id
(404 when absent), ownership check (401), then `findByIdAndDelete`. -/
def deleteExpense (store : List TxRec) (id requester : String) :
    OpResult Unit × List TxRec :=
  match findById store id with
  | none => (.notFound, store)
  | some e =>
    if e.user ≠ requester then (.forbidden, store)
    else (.ok (), store.filter (fun r => r.id != id))

/-- Model of `deleteIncome` (`src/unnamed/part_002` lines 35-52). -/
def deleteIncome (store : List TxRec) (id requester : String) :
    OpResult Unit × List TxRec :=
  match findById store id with
  | none => (.notFound, store)
  | some i =>
    if i.user ≠ requester then (.forbidden, store)
    else (.ok (), store.filter (fun r => r.id != id))

/-- Parsed `req.body` of a create request.  The controllers destructure only
`title, amount, category, description, date` from it; a `user` key a client
may also have sent is present in the body but never read. -/
structure CreateBody where
  title : Option String := none
  amount : Option ℚ := none
  category : Option String := none
  description : Option String := none
  date : Option Date := none
  user : Option String := none
  deriving DecidableEq, Repr

/-- Model of `addExpense` (`expenseController.js` lines 13-30): the created
document's `user` field is `req.user._id` (the authenticated requester), never
anything from the body; `date: date || Date.now()` defaults the date to the
clock.  `newId` stands for the Mongo-generated `_id`; absent body fields are
passed to Mongoose as `undefined` (modelled by the schema defaults here;
Mongoose-level validation of `amount`/`category` is outside this function and
rejects bad documents with a 400). -/
def addExpense (requester : String) (b : CreateBody) (now : Date) (newId : String) : TxRec :=
  { id := newId
    user := requester
    title := b.title.getD ""
    amount := b.amount.getD 0
    category := b.category.getD ""
    description := b.description.getD ""
    date := b.date.getD now
    createdAt := now }

/-- Model of `addIncome` (`src/unnamed/part_002` lines 15-32), identical in
shape to `addExpense`. -/
def addIncome (requester : String) (b : CreateBody) (now : Date) (newId : String) : TxRec :=
  { id := newId
    user := requester
    title := b.title.getD ""
    amount := b.amount.getD 0
    category := b.category.getD ""
    description := b.description.getD ""
    date := b.date.getD now
    createdAt := now }

/-- Insert a record into a list kept in descending date order (helper for the
`sort(\x7b date: -1 \x7d)` Mongo sort the list endpoints request). -/
def insertByDateDesc (x : TxRec) : List TxRec → List TxRec
  | [] => [x]
  | y :: ys => if dateLt x.date y.date then y :: insertByDateDesc x ys else x :: y :: ys

/-- Sort a list of records by date, newest first. -/
def sortByDateDesc : List TxRec → List TxRec
  | [] => []
  | x :: xs => insertByDateDesc x (sortByDateDesc xs)

/-- Model of `getExpenses` (`expenseController.js` lines 4-11):
`Expense.find(\x7b user: req.user._id \x7d).sort(\x7b date: -1 \x7d)`. -/
def getExpensesFor (store : List TxRec) (uid : String) : List TxRec :=
  sortByDateDesc (store.filter (fun r => r.user == uid))

/-- Model of `getIncomes` (`src/unnamed/part_002` lines 6-13). -/
def getIncomesFor (store : List TxRec) (uid : String) : List TxRec :=
  sortByDateDesc (store.filter (fun r => r.user == uid))

/-- Rendering of a JS number into report/message text.  Stands for the
`toFixed(1)` / `toLocaleString()` / template-literal formatting the
controllers use; the exact digit string is irrelevant to every claim, only
which value is rendered. -/
def fmtQ (q : ℚ) : String := toString q

/-- Rendering of a date, standing for `toLocaleDateString()`. -/
def fmtDate (d : Date) : String :=
  toString (d.month + 1) ++ "/" ++ toString d.day ++ "/" ++ toString d.year

/-- One report item of `downloadIncomes`/`downloadExpenses`: numbered title,
amount, category, formatted date, optional description line. -/
def reportItem (idx : Nat) (r : TxRec) : String :=
  toString (idx + 1) ++ ". " ++ r.title ++ "\n" ++
  "   Amount: $" ++ fmtQ r.amount ++ "\n" ++
  "   Category: " ++ r.category ++ "\n" ++
  "   Date: " ++ fmtDate r.date ++ "\n" ++
  (if r.description ≠ "" then "   Description: " ++ r.description ++ "\n" else "") ++
  "\n"

/-- Model of `downloadIncomes` (`src/unnamed/part_002` lines 54-82): renders
the requester's own incomes (same ownership-scoped query as the list
endpoint) followed by the total and record count footer. -/
def downloadIncomes (store : List TxRec) (uid : String) : String :=
  let incomes := getIncomesFor store uid
  "INCOME TRACKER REPORT\n=====================\n\n" ++
  String.join ((incomes.enum).map (fun p => reportItem p.1 p.2)) ++
  "TOTAL INCOME: $" ++ fmtQ ((incomes.map (fun r => r.amount)).sum) ++ "\n" ++
  "TOTAL RECORDS: " ++ toString incomes.length ++ "\n"

/-- Model of `downloadExpenses` (`expenseController.js` lines 51-79). -/
def downloadExpenses (store : List TxRec) (uid : String) : String :=
  let expenses := getExpensesFor store uid
  "EXPENSE TRACKER REPORT\n======================\n\n" ++
  String.join ((expenses.enum).map (fun p => reportItem p.1 p.2)) ++
  "TOTAL EXPENSES: $" ++ fmtQ ((expenses.map (fun r => r.amount)).sum) ++ "\n" ++
  "TOTAL RECORDS: " ++ toString expenses.length ++ "\n"

/-- JS `String.prototype.toLowerCase`, character by character. -/
def jsToLower (s : String) : String :=
  String.mk (s.toList.map Char.toLower)

/-- JS `String.prototype.trim`: strip leading and trailing whitespace. -/
def jsTrim (s : String) : String :=
  String.mk
    (((s.toList.dropWhile Char.isWhitespace).reverse.dropWhile Char.isWhitespace).reverse)

/-- Split a character list at every occurrence of `sep`, keeping empty
segments — the behavior of JS `split` with a one-character separator. -/
def splitOnChar (sep : Char) : List Char → List (List Char)
  | [] => [[]]
  | c :: rest =>
    let r := splitOnChar sep rest
    if c = sep then [] :: r
    else
      match r with
      | [] => [[c]]
      | h :: t => (c :: h) :: t

/-- JS `String.prototype.startsWith`. -/
def jsStartsWith (s pre : String) : Bool :=
  pre.toList.isPrefixOf s.toList

/-- Substring test, standing for JS `String.prototype.includes`. -/
def strContains (s sub : String) : Bool :=
  (s.toList.tails).any (fun t => sub.toList.isPrefixOf t)

/-- Per-category accumulator of `analyzeByCategory`
(`src/controllers/dashboardController.js` lines 312-345): running `total` and
`count`, then `average` and `percentage` filled in by a second pass. -/
structure CatStat where
  total : ℚ
  count : Nat
  average : ℚ
  percentage : ℚ
  deriving DecidableEq, Repr

/-- Add one transaction's amount under its category key.  A JS object keyed by
strings preserves insertion order, so the category map is an association list
whose keys appear in first-encounter order. -/
def upsertCat (cat : String) (amt : ℚ) : List (String × CatStat) → List (String × CatStat)
  | [] => [(cat, { total := amt, count := 1, average := 0, percentage := 0 })]
  | (c, s) :: rest =>
    if c = cat then (c, { s with total := s.total + amt, count := s.count + 1 }) :: rest
    else (c, s) :: upsertCat cat amt rest

/-- First pass of `analyzeByCategory`: group amounts and counts by category,
skipping entries whose category is falsy (`if (!transaction.category) return`,
the empty string in this model; the JS null-entry guard has no counterpart
because the list holds real documents). -/
def buildCategoryMap (txs : List TxRec) : List (String × CatStat) :=
  txs.foldl (fun m t => if t.category = "" then m else upsertCat t.category t.amount m) []

/-- Grand total of the grouped map, `Object.values(categoryMap).reduce(...)`
in the source. -/
def catGrandTotal (txs : List TxRec) : ℚ :=
  ((buildCategoryMap txs).map (fun e => e.2.total)).sum

/-- Second pass of `analyzeByCategory`: fill in `average = total / count`
when the count is positive and `percentage = total / grandTotal * 100`, or
`0` when the grand total is not positive. -/
def finishCategoryStats (m : List (String × CatStat)) : List (String × CatStat) :=
  let total := (m.map (fun e => e.2.total)).sum
  m.map (fun e =>
    (e.1, { e.2 with
      average := if e.2.count > 0 then e.2.total / (e.2.count : ℚ) else e.2.average
      percentage := if total > 0 then e.2.total / total * 100 else 0 }))

/-- Model of `analyzeByCategory` (`dashboardController.js` lines 312-345):
group by category, then fill in averages and percentages.  The returned
category map keeps its keys in first-encounter order. -/
def analyzeByCategory (txs : List TxRec) : List (String × CatStat) :=
  finishCategoryStats (buildCategoryMap txs)

/-- Adjacent-pairs check that a category sequence is sorted descending by
`total` (the order the spec asserts for the category breakdown). -/
def isSortedDescByTotal : List (String × CatStat) → Bool
  | [] => true
  | [_] => true
  | a :: b :: t =>
    if b.2.total ≤ a.2.total then isSortedDescByTotal (b :: t) else false

/-- The computed metrics record produced by `calculateFinancialMetrics`
(`dashboardController.js` lines 265-310). -/
structure FinancialData where
  totalIncome : ℚ
  totalExpenses : ℚ
  netSavings : ℚ
  savingsRate : ℚ
  currentMonthIncome : ℚ
  currentMonthExpense : ℚ
  incomeByCategory : List (String × CatStat)
  expenseByCategory : List (String × CatStat)
  txCountIncomes : Nat
  txCountExpenses : Nat
  deriving DecidableEq, Repr

/-- Model of `calculateFinancialMetrics` (`dashboardController.js` lines
265-310).  `now` is the clock read by `new Date()`; the current-month filters
compare `getMonth()` and `getFullYear()` of each transaction date with it. -/
def calculateFinancialMetrics (incomes expenses : List TxRec) (now : Date) : FinancialData :=
  let totalIncome := (incomes.map (fun i => i.amount)).sum
  let totalExpenses := (expenses.map (fun e => e.amount)).sum
  let netSavings := totalIncome - totalExpenses
  let savingsRate := if totalIncome > 0 then netSavings / totalIncome * 100 else 0
  let currentMonthIncome :=
    ((incomes.filter (fun i => i.date.month == now.month && i.date.year == now.year)).map
      (fun i => i.amount)).sum
  let currentMonthExpense :=
    ((expenses.filter (fun e => e.date.month == now.month && e.date.year == now.year)).map
      (fun e => e.amount)).sum
  { totalIncome := totalIncome
    totalExpenses := totalExpenses
    netSavings := netSavings
    savingsRate := savingsRate
    currentMonthIncome := currentMonthIncome
    currentMonthExpense := currentMonthExpense
    incomeByCategory := analyzeByCategory incomes
    expenseByCategory := analyzeByCategory expenses
    txCountIncomes := incomes.length
    txCountExpenses := expenses.length }

/-- Lookup of `categoryMap[key]` on the association-list model. -/
def lookupCat (m : List (String × CatStat)) (c : String) : Option CatStat :=
  (m.find? (fun e => e.1 == c)).map (fun e => e.2)

/-- An advice record pushed by the tip generators.  The three optional fields
carry the ad-hoc extras some rules attach (`currentSpending`, `target`,
`current`). -/
structure Tip where
  type : String
  title : String
  message : String
  priority : String
  action : String
  potentialImpact : String
  currentSpending : Option String := none
  target : Option String := none
  current : Option String := none
  deriving DecidableEq, Repr

/-- The DIVERSIFICATION advice record of `generateIncomeTips`. -/
def incomeDiversificationTip : Tip :=
  { type := "DIVERSIFICATION"
    title := "Diversify Income Sources"
    message := "Consider adding multiple income streams for financial stability"
    priority := "HIGH"
    action := "Explore freelance work, investments, or side businesses"
    potentialImpact := "High" }

/-- The STABILITY advice record of `generateIncomeTips`. -/
def incomeStabilityTip : Tip :=
  { type := "STABILITY"
    title := "Create Income Stability"
    message := "Irregular income can make budgeting challenging"
    priority := "MEDIUM"
    action := "Set aside funds during high-income months for low-income periods"
    potentialImpact := "Medium" }

/-- The GROWTH advice record of `generateIncomeTips`. -/
def incomeGrowthTip : Tip :=
  { type := "GROWTH"
    title := "Increase Earnings Potential"
    message := "Look for opportunities to increase your primary income source"
    priority := "LOW"
    action := "Consider skill development or asking for a raise"
    potentialImpact := "High" }

/-- The PASSIVE_INCOME advice record of `generateIncomeTips`. -/
def incomePassiveTip : Tip :=
  { type := "PASSIVE_INCOME"
    title := "Build Passive Income"
    message := "You have savings that could generate passive income"
    priority := "MEDIUM"
    action := "Research dividend stocks, peer-to-peer lending, or rental income"
    potentialImpact := "Medium" }

/-- Model of `generateIncomeTips` (`dashboardController.js` lines 364-415).
Each rule is an independent predicate over the metrics; matches are collected
in encounter order and the list is `slice(0, 5)`-truncated.  The `incomes`
parameter exists in the JS signature but is never read in the body. -/
def generateIncomeTips (fd : FinancialData) (incomes : List TxRec) : List Tip :=
  let _ := incomes
  let tips :=
    (if fd.incomeByCategory.length ≤ 1 then [incomeDiversificationTip] else []) ++
    (if (lookupCat fd.incomeByCategory "Salary").isNone ∧ fd.totalIncome > 0 then
      [incomeStabilityTip]
     else []) ++
    (if fd.totalIncome > 0 then [incomeGrowthTip] else []) ++
    (if fd.netSavings > 1000 then [incomePassiveTip] else [])
  tips.take 5

/-- The per-category REDUCTION advice record of `generateExpenseTips`. -/
def expenseReductionTip (cat : String) (data : CatStat) : Tip :=
  { type := "REDUCTION"
    title := "Reduce " ++ cat ++ " Spending"
    message := "You\x27re spending " ++ fmtQ data.percentage ++ "% of your expenses on " ++ cat
    priority := "HIGH"
    action := "Review " ++ jsToLower cat ++ " expenses and identify areas to cut back"
    potentialImpact := "High"
    currentSpending := some ("$" ++ fmtQ data.total) }

/-- The SUBSCRIPTION advice record of `generateExpenseTips`. -/
def expenseSubscriptionTip (count : Nat) (total : ℚ) : Tip :=
  { type := "SUBSCRIPTION"
    title := "Review Subscriptions"
    message := "You have " ++ toString count ++ " subscriptions costing $" ++ fmtQ total ++
      " monthly"
    priority := "MEDIUM"
    action := "Cancel unused subscriptions and bundle services"
    potentialImpact := "Medium" }

/-- The IMPULSE advice record of `generateExpenseTips`. -/
def expenseImpulseTip : Tip :=
  { type := "IMPULSE"
    title := "Monitor Impulse Spending"
    message := "High frequency of recent transactions may indicate impulse spending"
    priority := "MEDIUM"
    action := "Implement a 24-hour waiting period for non-essential purchases"
    potentialImpact := "Medium" }

/-- Model of `generateExpenseTips` (`dashboardController.js` lines 417-473).
`recentCutoff` stands for `moment().subtract(7, 'days')`, the boundary the
recency filter compares each expense date against; matches are collected in
encounter order and `slice(0, 5)`-truncated. -/
def generateExpenseTips (fd : FinancialData) (expenses : List TxRec) (recentCutoff : Date) :
    List Tip :=
  let catTips := fd.expenseByCategory.filterMap (fun e =>
    if e.2.percentage > 30 then some (expenseReductionTip e.1 e.2) else none)
  let subscriptionExpenses := expenses.filter (fun exp =>
    (["Entertainment", "Bills", "Other"].contains exp.category) &&
      strContains (jsToLower exp.title) "subscription")
  let subTips :=
    if subscriptionExpenses.length > 3 then
      [expenseSubscriptionTip subscriptionExpenses.length
        ((subscriptionExpenses.map (fun e => e.amount)).sum)]
    else []
  let recentExpenses := sortByDateDesc (expenses.filter (fun exp => dateLt recentCutoff exp.date))
  let impulseTips := if recentExpenses.length > 10 then [expenseImpulseTip] else []
  (catTips ++ subTips ++ impulseTips).take 5

/-- The low-savings-rate EMERGENCY_FUND advice record of `generateSavingTips`
(the "increase savings" rule, triggered when the savings rate is below 10). -/
def savingBuildEmergencyFundTip (savingsRate : ℚ) : Tip :=
  { type := "EMERGENCY_FUND"
    title := "Build Emergency Fund"
    message := "Your savings rate is " ++ fmtQ savingsRate ++ "%. Aim for at least 20%"
    priority := "HIGH"
    action := "Automate savings transfers and reduce discretionary spending"
    potentialImpact := "High"
    target := some "20% savings rate" }

/-- The SAVINGS_GROWTH advice record of `generateSavingTips`. -/
def savingIncreaseRateTip : Tip :=
  { type := "SAVINGS_GROWTH"
    title := "Increase Savings Rate"
    message := "Good start! Try to increase your savings rate gradually"
    priority := "MEDIUM"
    action := "Save 50% of any income increases or windfalls"
    potentialImpact := "Medium" }

/-- The INVESTMENT advice record of `generateSavingTips`. -/
def savingOptimizeTip : Tip :=
  { type := "INVESTMENT"
    title := "Optimize Savings"
    message := "Excellent savings rate! Consider investment options"
    priority := "LOW"
    action := "Explore high-yield savings accounts or low-risk investments"
    potentialImpact := "High" }

/-- The coverage-based EMERGENCY_FUND advice record of `generateSavingTips`;
`monthsCoverage` is `netSavings / (monthlyExpenses || 1)`. -/
def savingStrengthenEmergencyFundTip (monthsCoverage : ℚ) : Tip :=
  { type := "EMERGENCY_FUND"
    title := "Strengthen Emergency Fund"
    message := "Aim for 3-6 months of expenses in your emergency fund"
    priority := "HIGH"
    action := "Set aside funds until you reach this safety net"
    potentialImpact := "High"
    current := some (fmtQ monthsCoverage ++ " months coverage") }

/-- Model of `generateSavingTips` (`dashboardController.js` lines 475-527).
The three savings-rate rules have mutually exclusive trigger ranges; the
emergency-fund-coverage rule is independent.  Unlike the other two
generators, the result is returned without a `slice(0, 5)`.
`financialData.savingsRate || 0` and the trailing `|| 0` of the
`monthlyExpenses` chain only replace falsy numbers by zero, which is the
identity on `ℚ`. -/
def generateSavingTips (fd : FinancialData) : List Tip :=
  let savingsRate := fd.savingsRate
  let monthlyExpenses :=
    if fd.currentMonthExpense ≠ 0 then fd.currentMonthExpense else fd.totalExpenses / 12
  (if savingsRate < 10 then [savingBuildEmergencyFundTip savingsRate] else []) ++
  (if 10 ≤ savingsRate ∧ savingsRate < 20 then [savingIncreaseRateTip] else []) ++
  (if savingsRate ≥ 20 then [savingOptimizeTip] else []) ++
  (if fd.netSavings < monthlyExpenses * 3 then
    [savingStrengthenEmergencyFundTip
      (fd.netSavings / (if monthlyExpenses = 0 then 1 else monthlyExpenses))]
   else [])

/-- Model of the `getPersonalizedTips` handler body (`dashboardController.js`
lines 154-199): recompute the metrics, then switch on `req.body.category`;
the `default` arm concatenates all three generators' outputs with no further
truncation. -/
def getPersonalizedTips (category : Option String) (incomes expenses : List TxRec)
    (now recentCutoff : Date) : List Tip :=
  let fd := calculateFinancialMetrics incomes expenses now
  match category with
  | some "income" => generateIncomeTips fd incomes
  | some "expense" => generateExpenseTips fd expenses recentCutoff
  | some "saving" => generateSavingTips fd
  | _ =>
    generateIncomeTips fd incomes ++ generateExpenseTips fd expenses recentCutoff ++
      generateSavingTips fd

/-- An account document.  The `User` Mongoose schema file itself is not among
the provided sources; its fields are modelled from the spec: unique
lower-cased email, password hash, display-name fields, optional avatar
reference, status flag (active/suspended) and role — exactly the projection
the controllers and middleware read. -/
structure User where
  id : String
  firstName : String
  lastName : String
  email : String
  password : String
  profileImage : Option String
  status : String
  role : String
  deriving DecidableEq, Repr

/-- The password-free projection produced by `.select('-password')`. -/
structure SafeUser where
  id : String
  firstName : String
  lastName : String
  email : String
  profileImage : Option String
  status : String
  role : String
  deriving DecidableEq, Repr

/-- Drop the password hash from a loaded account. -/
def stripPassword (u : User) : SafeUser :=
  { id := u.id
    firstName := u.firstName
    lastName := u.lastName
    email := u.email
    profileImage := u.profileImage
    status := u.status
    role := u.role }

/-- Model of `User.findById(id).select('-password')`. -/
def findByIdNoPassword (users : List User) (id : String) : Option SafeUser :=
  (users.find? (fun u => u.id == id)).map stripPassword

/-- Result of `jwt.verify`: a verified account id, or the
`JsonWebTokenError` / `TokenExpiredError` failure classes the middleware
distinguishes. -/
inductive VerifyOutcome where
  | valid (id : String)
  | invalid
  | expired
  deriving DecidableEq, Repr

/-- The parts of the incoming request the auth middleware reads. -/
structure AuthRequest where
  authHeader : Option String
  cookieToken : Option String
  deriving DecidableEq, Repr

/-- What the middleware does with the request: call `next()` with `req.user`
set to the loaded (possibly absent) account, or send a 401/403 JSON reply. -/
inductive AuthOutcome where
  | next (user : Option SafeUser)
  | reject (status : Nat) (msg : String)
  deriving DecidableEq, Repr

/-- Does the request carry a header value starting with `Bearer`? -/
def hasBearerHeader (req : AuthRequest) : Bool :=
  match req.authHeader with
  | some h => jsStartsWith h "Bearer"
  | none => false

/-- Model of the `protect` middleware (`src/unnamed/part_000` lines 4-74).
`verify` abstracts `jwt.verify(token, process.env.JWT_SECRET)`.  On the
bearer branch the middleware looks the account up without its password,
rejects when it is missing, rejects when its status is suspended, and
otherwise attaches it; on the cookie branch it only verifies the token and
attaches whatever the password-free lookup returns, calling `next()` with no
existence or suspension check.  `jwt.verify(undefined)` (a `Bearer` header
with no second token word) throws a `JsonWebTokenError`, answered like any
invalid token. -/
def protect (verify : String → VerifyOutcome) (users : List User) (req : AuthRequest) :
    AuthOutcome :=
  if hasBearerHeader req then
    match ((splitOnChar ' ' (req.authHeader.getD "").toList).map String.mk)[1]? with
    | none => .reject 401 "Invalid token"
    | some tok =>
      match verify tok with
      | .valid uid =>
        match findByIdNoPassword users uid with
        | none => .reject 401 "User not found - token invalid"
        | some u =>
          if u.status = "suspended" then
            .reject 401 "Account suspended. Please contact support."
          else .next (some u)
      | .invalid => .reject 401 "Invalid token"
      | .expired => .reject 401 "Token expired"
  else
    match req.cookieToken with
    | some tok =>
      match verify tok with
      | .valid uid => .next (findByIdNoPassword users uid)
      | .invalid => .reject 401 "Not authorized, token failed"
      | .expired => .reject 401 "Not authorized, token failed"
    | none => .reject 401 "Not authorized, no token provided"

/-- Parsed `req.body` of a registration request; `none` is an absent field. -/
structure RegBody where
  firstName : Option String := none
  lastName : Option String := none
  email : Option String := none
  password : Option String := none
  confirmPassword : Option String := none
  deriving DecidableEq, Repr

/-- Registration outcome: a 400 validation reply, the 400 duplicate-email
reply (the spec's `Conflict`), or the created account. -/
inductive RegResult where
  | validationError (msg : String)
  | conflict
  | created (u : User)
  deriving DecidableEq, Repr

/-- JS `!field?.trim()`: absent, or blank after trimming. -/
def blankOpt (s : Option String) : Bool :=
  match s with
  | none => true
  | some v => jsTrim v == ""

/-- JS `!field` on an optional string: absent or empty (no trimming). -/
def falsyStr (s : Option String) : Bool :=
  (s.getD "") == ""

/-- No whitespace characters, the `[^\s@]` character-class restriction. -/
def noWs (cs : List Char) : Bool :=
  cs.all (fun c => !c.isWhitespace)

/-- Test of the registration email pattern `[^\s@]+@[^\s@]+\.[^\s@]+`
anchored at both ends: exactly one `@` (the classes exclude it), nonempty
whitespace-free parts around it, and the domain decomposable as
`B ++ "." ++ C` with `B`, `C` nonempty — equivalently, its first and last
dot-separated segments are nonempty and it contains at least one dot. -/
def emailValid (s : String) : Bool :=
  match splitOnChar '@' s.toList with
  | [localPart, domainPart] =>
    !localPart.isEmpty && noWs localPart && !domainPart.isEmpty && noWs domainPart &&
      (match splitOnChar '.' domainPart with
       | [] => false
       | [_] => false
       | ps => !(ps.headD []).isEmpty && !(ps.getLastD []).isEmpty)
  | _ => false

/-- Model of `register` (`src/controllers/authController.js` lines 12-260),
restricted to the account-collection logic: the field validations in source
order, the case-insensitive duplicate lookup
`User.findOne(\x7b email: email.toLowerCase().trim() \x7d)` answered with the
duplicate-email reply and an unchanged collection, and otherwise creation of
the account with the normalized email.  `newId` stands for the
Mongo-generated `_id`; the profile-image upload is best-effort and external
(a failed upload never fails registration), so the created account's avatar
is modelled as absent. -/
def register (users : List User) (b : RegBody) (newId : String) : RegResult × List User :=
  if blankOpt b.firstName then (.validationError "First name is required", users)
  else if blankOpt b.lastName then (.validationError "Last name is required", users)
  else if blankOpt b.email then (.validationError "Email is required", users)
  else if !emailValid (jsTrim (b.email.getD "")) then
    (.validationError "Please provide a valid email address", users)
  else if falsyStr b.password then (.validationError "Password is required", users)
  else if falsyStr b.confirmPassword then
    (.validationError "Please confirm your password", users)
  else if (b.password.getD "").length < 6 then
    (.validationError "Password must be at least 6 characters long", users)
  else if b.password ≠ b.confirmPassword then
    (.validationError "Passwords do not match", users)
  else
    let emailNorm := jsTrim (jsToLower (b.email.getD ""))
    if users.any (fun u => u.email == emailNorm) then (.conflict, users)
    else
      let u : User :=
        { id := newId
          firstName := jsTrim (b.firstName.getD "")
          lastName := jsTrim (b.lastName.getD "")
          email := emailNorm
          password := b.password.getD ""
          profileImage := none
          status := "active"
          role := "user" }
      (.created u, users ++ [u])

/-- The persisted collections the account-deletion cascade touches. -/
structure AppState where
  users : List User
  incomes : List TxRec
  expenses : List TxRec
  deriving DecidableEq, Repr

/-- Model of `deleteAccount` (`authController.js` lines 493-541): look the
account up (404 leaves everything unchanged, flag `false`), delete the avatar
asset (external, best-effort), run `Income.deleteMany(\x7b user \x7d)`, and
delete the account document.  No statement in the handler touches the
Expense collection.  The flag `true` is the
"Account and all associated data deleted successfully" 200 reply. -/
def deleteAccount (st : AppState) (uid : String) : AppState × Bool :=
  match st.users.find? (fun u => u.id == uid) with
  | none => (st, false)
  | some _ =>
    ({ users := st.users.filter (fun u => u.id != uid)
       incomes := st.incomes.filter (fun i => i.user != uid)
       expenses := st.expenses }, true)

/-- Which external text-generation keys are configured
(`process.env.OPENAI_API_KEY`, `process.env.GEMINI_API_KEY`). -/
structure AIConfig where
  openaiKey : Bool
  geminiKey : Bool
  deriving DecidableEq, Repr

/-- Outcome of the external text-generation HTTP call: the generated text, or
a thrown error (network failure, non-2xx, malformed payload). -/
inductive ExtCallOutcome where
  | ok (text : String)
  | fail
  deriving DecidableEq, Repr

/-- The `summary` object built by `prepareAnalysisData`
(`dashboardController.js` lines 1032-1071).  `incomeChange`/`expenseChange`
are kept as the underlying numbers; the source renders them through
`toFixed(1)` before the comparisons coerce them back. -/
structure AnalysisSummary where
  period : String
  currentIncome : ℚ
  currentExpense : ℚ
  currentSavings : ℚ
  previousIncome : ℚ
  previousExpense : ℚ
  previousSavings : ℚ
  incomeChange : ℚ
  expenseChange : ℚ
  deriving DecidableEq, Repr

/-- One entry of the `topCategories` list of `prepareAnalysisData`. -/
structure CategoryShare where
  category : String
  amount : ℚ
  percentage : ℚ
  deriving DecidableEq, Repr

/-- The analysis payload handed to the insight generator. -/
structure AnalysisData where
  summary : AnalysisSummary
  categories : List CategoryShare
  txCountIncomes : Nat
  txCountExpenses : Nat
  deriving DecidableEq, Repr

/-- Accumulate an amount under a category key, insertion-ordered (the
`categoryBreakdown[expense.category] = (… || 0) + expense.amount` fold). -/
def upsertAmt (cat : String) (amt : ℚ) : List (String × ℚ) → List (String × ℚ)
  | [] => [(cat, amt)]
  | (c, q) :: rest =>
    if c = cat then (c, q + amt) :: rest
    else (c, q) :: upsertAmt cat amt rest

/-- Descending-by-amount ordered insert, the `sort(([,a],[,b]) => b - a)`. -/
def insertAmtDesc (x : String × ℚ) : List (String × ℚ) → List (String × ℚ)
  | [] => [x]
  | y :: ys => if x.2 ≤ y.2 then y :: insertAmtDesc x ys else x :: y :: ys

/-- Sort category/amount pairs by amount, largest first. -/
def sortAmtDesc : List (String × ℚ) → List (String × ℚ)
  | [] => []
  | x :: xs => insertAmtDesc x (sortAmtDesc xs)

/-- Adjacent-pairs check that shares are sorted descending by amount. -/
def isSortedDescByAmount : List (String × ℚ) → Bool
  | [] => true
  | [_] => true
  | a :: b :: t =>
    if b.2 ≤ a.2 then isSortedDescByAmount (b :: t) else false

/-- Model of `prepareAnalysisData` (`dashboardController.js` lines
1032-1071): period sums, the expense category breakdown sorted descending and
truncated to the top 5 with `percentage = amount / currentExpense * 100`
(`NaN` in JS when the period has no expenses; `0` in `ℚ`), and the percentage
changes versus the previous period (`0` when the previous total is zero). -/
def prepareAnalysisData (currentIncomes currentExpenses previousIncomes previousExpenses :
    List TxRec) (period : String) : AnalysisData :=
  let currentIncome := (currentIncomes.map (fun i => i.amount)).sum
  let currentExpense := (currentExpenses.map (fun e => e.amount)).sum
  let previousIncome := (previousIncomes.map (fun i => i.amount)).sum
  let previousExpense := (previousExpenses.map (fun e => e.amount)).sum
  let breakdown := currentExpenses.foldl (fun m e => upsertAmt e.category e.amount m) []
  let topCategories := ((sortAmtDesc breakdown).take 5).map (fun e =>
    { category := e.1, amount := e.2, percentage := e.2 / currentExpense * 100 })
  { summary :=
      { period := period
        currentIncome := currentIncome
        currentExpense := currentExpense
        currentSavings := currentIncome - currentExpense
        previousIncome := previousIncome
        previousExpense := previousExpense
        previousSavings := previousIncome - previousExpense
        incomeChange :=
          if previousIncome ≠ 0 then (currentIncome - previousIncome) / previousIncome * 100
          else 0
        expenseChange :=
          if previousExpense ≠ 0 then (currentExpense - previousExpense) / previousExpense * 100
          else 0 }
    categories := topCategories
    txCountIncomes := currentIncomes.length
    txCountExpenses := currentExpenses.length }

/-- Model of `generateFallbackInsights` (`dashboardController.js` lines
1188-1220): the deterministic rule-based text, four independent sentence
rules joined with spaces.  The savings-rate division is unguarded in the
source (`NaN` when `currentIncome` is zero; `0` here — no claim depends on
that corner). -/
def generateFallbackInsights (ad : AnalysisData) : String :=
  let insights :=
    (if ad.summary.expenseChange > 10 then
      ["Your spending increased by " ++ fmtQ ad.summary.expenseChange ++
        "% this period. Consider reviewing your expenses."]
     else if ad.summary.expenseChange < -5 then
      ["Great job! You reduced spending by " ++ fmtQ |ad.summary.expenseChange| ++
        "% compared to last period."]
     else []) ++
    (let savingsRate := ad.summary.currentSavings / ad.summary.currentIncome * 100
     if savingsRate < 10 then
      ["Your savings rate is " ++ fmtQ savingsRate ++
        "%. Aim for 20% by reducing discretionary spending."]
     else
      ["Good savings rate of " ++ fmtQ savingsRate ++
        "%! Keep maintaining this healthy habit."]) ++
    (match ad.categories.head? with
     | some top =>
       if top.percentage > 30 then
        ["Your " ++ top.category ++ " spending (" ++ fmtQ top.percentage ++
          "%) is quite high. Look for ways to optimize this category."]
       else []
     | none => []) ++
    (if ad.summary.currentSavings > 0 then
      ["You\x27re saving $" ++ fmtQ ad.summary.currentSavings ++
        " this period - that\x27s excellent financial discipline!"]
     else [])
  String.intercalate " " insights

/-- Model of `generateAIInsights` (`dashboardController.js` lines 1073-1145):
with an OpenAI key configured the external call's text is returned, with a
Gemini key likewise; with neither key, `generateFallbackInsights` is returned
directly; and the whole chain sits in a `try`/`catch` whose handler also
returns `generateFallbackInsights`, so a thrown external call degrades to the
same deterministic text instead of failing the request. -/
def generateAIInsights (cfg : AIConfig) (callResult : ExtCallOutcome) (ad : AnalysisData) :
    String :=
  if cfg.openaiKey then
    match callResult with
    | .ok text => text
    | .fail => generateFallbackInsights ad
  else if cfg.geminiKey then
    match callResult with
    | .ok text => text
    | .fail => generateFallbackInsights ad
  else generateFallbackInsights ad

/-! Concrete fixtures used by the counterexamples and witnesses below. -/

/-- A fixed calendar date. -/
def d2024Jan1 : Date := ⟨2024, 0, 1⟩

/-- An expense owned by account `alice`. -/
def foreignExpense : TxRec :=
  { id := "e1", user := "alice", title := "groceries", amount := 30, category := "Food",
    description := "", date := d2024Jan1, createdAt := d2024Jan1 }

/-- An expense owned by account `u1`, amount 50. -/
def ownExpense : TxRec :=
  { id := "e1", user := "u1", title := "lunch", amount := 50, category := "Food",
    description := "", date := d2024Jan1, createdAt := d2024Jan1 }

/-- An update body that provides the amount field with the value `0`. -/
def zeroAmountUpdate : UpdateBody := { amount := some 0 }

/-- An update body providing every field with a truthy value except the
empty-string description. -/
def fullUpdate : UpdateBody :=
  { title := some "taxi", amount := some 7, category := some "Transport",
    description := some "", date := some ⟨2024, 1, 2⟩ }

/-- A create body that tries to plant a foreign `user` value. -/
def smuggledOwnerBody : CreateBody :=
  { title := some "hack", amount := some 5, category := some "Food", user := some "mallory" }

/-- Account fixture owning one income and one expense. -/
def userA : User :=
  { id := "A", firstName := "Ada", lastName := "Lang", email := "ada@example.com",
    password := "pw1234", profileImage := none, status := "active", role := "user" }

/-- An income of account A. -/
def incomeA : TxRec :=
  { id := "i1", user := "A", title := "salary", amount := 1000, category := "Other",
    description := "", date := d2024Jan1, createdAt := d2024Jan1 }

/-- An expense of account A. -/
def expenseA : TxRec :=
  { id := "e9", user := "A", title := "groceries", amount := 300, category := "Food",
    description := "", date := d2024Jan1, createdAt := d2024Jan1 }

/-- App state holding account A with one income and one expense. -/
def stA : AppState := { users := [userA], incomes := [incomeA], expenses := [expenseA] }

/-- A suspended account. -/
def suspendedUser : User :=
  { id := "u1", firstName := "Sam", lastName := "Stone", email := "sam@example.com",
    password := "pw1234", profileImage := none, status := "suspended", role := "user" }

/-- Token verifier fixture: one valid token for the suspended account,
one expired token, everything else invalid. -/
def verifyFix : String → VerifyOutcome := fun t =>
  if t = "tokSusp" then .valid "u1"
  else if t = "tokExpired" then .expired
  else .invalid

/-- Request carrying only a cookie token for the suspended account. -/
def cookieReqSusp : AuthRequest := { authHeader := none, cookieToken := some "tokSusp" }

/-- Request carrying only a cookie token that fails verification. -/
def cookieReqBad : AuthRequest := { authHeader := none, cookieToken := some "nope" }

/-- Request carrying the suspended account's token in a bearer header. -/
def bearerReqSusp : AuthRequest := { authHeader := some "Bearer tokSusp", cookieToken := none }

/-- A 1-unit Transport expense (first encountered). -/
def busTx : TxRec :=
  { id := "t1", user := "u", title := "bus", amount := 1, category := "Transport",
    description := "", date := d2024Jan1, createdAt := d2024Jan1 }

/-- A 2-unit Food expense (encountered second, larger total). -/
def mealTx : TxRec :=
  { id := "t2", user := "u", title := "meal", amount := 2, category := "Food",
    description := "", date := d2024Jan1, createdAt := d2024Jan1 }

/-- A zero-amount expense, giving a zero grand total. -/
def freeTx : TxRec :=
  { id := "t3", user := "u", title := "gift", amount := 0, category := "Food",
    description := "", date := d2024Jan1, createdAt := d2024Jan1 }

/-- Metrics fixture with a 5% savings rate (and a month of expenses on
record, so only the low-savings-rate rule and the coverage rule can fire). -/
def fdLowSavings : FinancialData :=
  { totalIncome := 100, totalExpenses := 95, netSavings := 5, savingsRate := 5,
    currentMonthIncome := 100, currentMonthExpense := 95,
    incomeByCategory := [], expenseByCategory := [], txCountIncomes := 1, txCountExpenses := 1 }

/-- Metrics fixture with a 25% savings rate. -/
def fdHighSavings : FinancialData :=
  { totalIncome := 100, totalExpenses := 75, netSavings := 25, savingsRate := 25,
    currentMonthIncome := 100, currentMonthExpense := 75,
    incomeByCategory := [], expenseByCategory := [], txCountIncomes := 1, txCountExpenses := 1 }

/-- A large freelance-style income inside the current month (June 2024). -/
def gigIncome : TxRec :=
  { id := "i1", user := "A", title := "gig", amount := 10000, category := "Other",
    description := "", date := ⟨2024, 5, 10⟩, createdAt := ⟨2024, 5, 10⟩ }

/-- An old Food expense (January 2023, outside every recent window). -/
def oldMeal : TxRec :=
  { id := "e1", user := "A", title := "meal", amount := 100, category := "Food",
    description := "", date := ⟨2023, 0, 1⟩, createdAt := ⟨2023, 0, 1⟩ }

/-- The clock fixture: June 15, 2024. -/
def nowJun15 : Date := ⟨2024, 5, 15⟩

/-- Seven days before `nowJun15`, the recency cutoff. -/
def cutoffJun8 : Date := ⟨2024, 5, 8⟩

/-- The metrics `calculateFinancialMetrics [gigIncome] [oldMeal] nowJun15`
evaluates to. -/
def fdJun : FinancialData :=
  { totalIncome := 10000, totalExpenses := 100, netSavings := 9900, savingsRate := 99,
    currentMonthIncome := 10000, currentMonthExpense := 0,
    incomeByCategory := [("Other", ⟨10000, 1, 10000, 100⟩)],
    expenseByCategory := [("Food", ⟨100, 1, 100, 100⟩)],
    txCountIncomes := 1, txCountExpenses := 1 }

/-- A minimal analysis payload (all sums zero, no categories). -/
def adFix : AnalysisData :=
  { summary :=
      { period := "month", currentIncome := 0, currentExpense := 0, currentSavings := 0,
        previousIncome := 0, previousExpense := 0, previousSavings := 0,
        incomeChange := 0, expenseChange := 0 }
    categories := [], txCountIncomes := 0, txCountExpenses := 0 }

/-- Registration body with a mixed-case email. -/
def regBodyA : RegBody :=
  { firstName := some "Al", lastName := some "Bee", email := some "User@Example.com",
    password := some "secret1", confirmPassword := some "secret1" }

/-- Same registration with the email in a different letter case. -/
def regBodyB : RegBody :=
  { firstName := some "Al", lastName := some "Bee", email := some "uSER@EXAMPLE.COM",
    password := some "secret1", confirmPassword := some "secret1" }

/-- The account `register` creates from `regBodyA`. -/
def createdA : User :=
  { id := "id1", firstName := "Al", lastName := "Bee", email := "user@example.com",
    password := "secret1", profileImage := none, status := "active", role := "user" }

/-! Theorems.  Each claim of the specification is settled by exactly one
theorem below (plus, where needed, a closed counterexample and a closed
witness instance). -/

theorem mem_insertByDateDesc {x a : TxRec} {l : List TxRec} :
    a ∈ insertByDateDesc x l ↔ a = x ∨ a ∈ l := by
  induction l with
  | nil => simp [insertByDateDesc]
  | cons y ys ih =>
    by_cases h : dateLt x.date y.date
    · simp only [insertByDateDesc, if_pos h, List.mem_cons, ih]
      tauto
    · simp only [insertByDateDesc, if_neg h, List.mem_cons]

theorem mem_sortByDateDesc {a : TxRec} {l : List TxRec} :
    a ∈ sortByDateDesc l ↔ a ∈ l := by
  induction l with
  | nil => simp [sortByDateDesc]
  | cons y ys ih => simp [sortByDateDesc, mem_insertByDateDesc, ih]

/-- C1 counterexample: the claim asserts the Forbidden outcome "is produced
regardless of whether the record exists", but on an absent record the
operations reply NotFound, not Forbidden (the 404 branch runs before the
ownership check). -/
theorem c1_absent_record_yields_notFound :
    getExpense [] "e1" "bob" = OpResult.notFound ∧
      (OpResult.notFound : OpResult TxRec) ≠ OpResult.forbidden := by
  exact ⟨rfl, by decide⟩

/-- C1 (amended): for every transaction variant and every get/update/delete
by id, when the record exists and its owner differs from the requester the
operation fails Forbidden (not NotFound); when the record does not exist it
fails NotFound (so Forbidden is not produced for absent records). -/
theorem c1_ownership_outcomes (store : List TxRec) (id requester : String) (b : UpdateBody) :
    (∀ r, findById store id = some r → r.user ≠ requester →
      getExpense store id requester = .forbidden ∧
      (updateExpense store id requester b).1 = .forbidden ∧
      (deleteExpense store id requester).1 = .forbidden ∧
      getIncome store id requester = .forbidden ∧
      (updateIncome store id requester b).1 = .forbidden ∧
      (deleteIncome store id requester).1 = .forbidden) ∧
    (findById store id = none →
      getExpense store id requester = .notFound ∧
      (updateExpense store id requester b).1 = .notFound ∧
      (deleteExpense store id requester).1 = .notFound ∧
      getIncome store id requester = .notFound ∧
      (updateIncome store id requester b).1 = .notFound ∧
      (deleteIncome store id requester).1 = .notFound) := by
  constructor
  · intro r hfind hown
    simp [getExpense, updateExpense, deleteExpense, getIncome, updateIncome, deleteIncome,
      hfind, hown]
  · intro hnone
    simp [getExpense, updateExpense, deleteExpense, getIncome, updateIncome, deleteIncome,
      hnone]

/-- C1 witness: a store holding alice's expense, requested by bob, takes the
Forbidden branch in all six operations; the empty store takes NotFound. -/
theorem c1_ownership_outcomes_witness :
    (getExpense [foreignExpense] "e1" "bob" = .forbidden ∧
      (updateExpense [foreignExpense] "e1" "bob" emptyUpdate).1 = .forbidden ∧
      (deleteExpense [foreignExpense] "e1" "bob").1 = .forbidden ∧
      getIncome [foreignExpense] "e1" "bob" = .forbidden ∧
      (updateIncome [foreignExpense] "e1" "bob" emptyUpdate).1 = .forbidden ∧
      (deleteIncome [foreignExpense] "e1" "bob").1 = .forbidden) ∧
    (getExpense [] "e2" "bob" = .notFound ∧
      (updateExpense [] "e2" "bob" emptyUpdate).1 = .notFound ∧
      (deleteExpense [] "e2" "bob").1 = .notFound ∧
      getIncome [] "e2" "bob" = .notFound ∧
      (updateIncome [] "e2" "bob" emptyUpdate).1 = .notFound ∧
      (deleteIncome [] "e2" "bob").1 = .notFound) :=
  ⟨(c1_ownership_outcomes [foreignExpense] "e1" "bob" emptyUpdate).1 foreignExpense
      (by rfl) (by decide),
    (c1_ownership_outcomes [] "e2" "bob" emptyUpdate).2 (by rfl)⟩

/-- C5 counterexample: the claim asserts that exactly the provided fields are
applied, but an update that provides `amount = 0` leaves the record's amount
at its prior value 50 — the `amount || expense.amount` pattern discards falsy
provided values instead of applying them. -/
theorem c5_zero_amount_not_applied :
    zeroAmountUpdate.amount = some 0 ∧
      (updateExpense [ownExpense] "e1" "u1" zeroAmountUpdate).1 = OpResult.ok ownExpense ∧
      ownExpense.amount = 50 := by
  refine ⟨rfl, ?_, rfl⟩
  decide

/-- C5 (amended): update (same field logic in both variants) applies a
provided `title`/`amount`/`category`/`date` only when the value is truthy
(non-empty, non-zero), applies a provided `description` always, keeps every
omitted field at its prior value, and therefore leaves the record unchanged
under the empty partial field set. -/
theorem c5_partial_update_semantics (store : List TxRec) (id requester : String)
    (b : UpdateBody) (e : TxRec) (hfind : findById store id = some e)
    (hown : e.user = requester) :
    (updateExpense store id requester emptyUpdate).1 = OpResult.ok e ∧
    (updateIncome store id requester emptyUpdate).1 = OpResult.ok e ∧
    applyIncomeUpdate b e = applyExpenseUpdate b e ∧
    (b.title = none → (applyExpenseUpdate b e).title = e.title) ∧
    (b.amount = none → (applyExpenseUpdate b e).amount = e.amount) ∧
    (b.category = none → (applyExpenseUpdate b e).category = e.category) ∧
    (b.description = none → (applyExpenseUpdate b e).description = e.description) ∧
    (b.date = none → (applyExpenseUpdate b e).date = e.date) ∧
    (∀ t, b.title = some t → t ≠ "" → (applyExpenseUpdate b e).title = t) ∧
    (∀ a, b.amount = some a → a ≠ 0 → (applyExpenseUpdate b e).amount = a) ∧
    (∀ c, b.category = some c → c ≠ "" → (applyExpenseUpdate b e).category = c) ∧
    (∀ d, b.description = some d → (applyExpenseUpdate b e).description = d) ∧
    (∀ d, b.date = some d → (applyExpenseUpdate b e).date = d) := by
  have happE : applyExpenseUpdate emptyUpdate e = e := rfl
  have happI : applyIncomeUpdate emptyUpdate e = e := rfl
  refine ⟨?_, ?_, ?_, ?_, ?_, ?_, ?_, ?_, ?_, ?_, ?_, ?_, ?_⟩
  · simp [updateExpense, hfind, hown, happE]
  · simp [updateIncome, hfind, hown, happI]
  · rfl
  · intro h; simp [applyExpenseUpdate, h]
  · intro h; simp [applyExpenseUpdate, h]
  · intro h; simp [applyExpenseUpdate, h]
  · intro h; simp [applyExpenseUpdate, h]
  · intro h; simp [applyExpenseUpdate, h]
  · intro t ht hne; simp [applyExpenseUpdate, ht, hne]
  · intro a ha hne; simp [applyExpenseUpdate, ha, hne]
  · intro c hc hne; simp [applyExpenseUpdate, hc, hne]
  · intro d hd; simp [applyExpenseUpdate, hd]
  · intro d hd; simp [applyExpenseUpdate, hd]

/-- C5 witness: on the concrete record `ownExpense`, the empty update returns
the record unchanged, and a full truthy update applies the provided title,
amount and description. -/
theorem c5_partial_update_semantics_witness :
    (updateExpense [ownExpense] "e1" "u1" emptyUpdate).1 = OpResult.ok ownExpense ∧
      (applyExpenseUpdate fullUpdate ownExpense).title = "taxi" ∧
      (applyExpenseUpdate fullUpdate ownExpense).amount = 7 ∧
      (applyExpenseUpdate fullUpdate ownExpense).description = "" := by
  have h := c5_partial_update_semantics [ownExpense] "e1" "u1" fullUpdate ownExpense
    (by rfl) (by rfl)
  exact ⟨h.1, h.2.2.2.2.2.2.2.2.1 "taxi" rfl (by decide),
    h.2.2.2.2.2.2.2.2.2.1 7 rfl (by norm_num),
    h.2.2.2.2.2.2.2.2.2.2.2.1 "" rfl⟩

/-- C10: ownership is an invariant of every transaction operation — create
stamps the authenticated requester as owner (a `user` value smuggled into
the body is never read), the update field application never touches the
`user` field, and the list/export queries return only records owned by the
requester. -/
theorem c10_ownership_invariant (requester : String) (cb : CreateBody) (now : Date)
    (newId : String) (b : UpdateBody) (e : TxRec) (store : List TxRec) (uid : String) :
    (addExpense requester cb now newId).user = requester ∧
    (addIncome requester cb now newId).user = requester ∧
    (applyExpenseUpdate b e).user = e.user ∧
    (applyIncomeUpdate b e).user = e.user ∧
    (∀ r ∈ getExpensesFor store uid, r.user = uid) ∧
    (∀ r ∈ getIncomesFor store uid, r.user = uid) := by
  refine ⟨rfl, rfl, rfl, rfl, ?_, ?_⟩
  · intro r hr
    have : r ∈ store.filter (fun s => s.user == uid) := by
      simpa [getExpensesFor, mem_sortByDateDesc] using hr
    simpa using (List.mem_filter.mp this).2
  · intro r hr
    have : r ∈ store.filter (fun s => s.user == uid) := by
      simpa [getIncomesFor, mem_sortByDateDesc] using hr
    simpa using (List.mem_filter.mp this).2

/-- C10 witness: creating with a body that smuggles `user = "mallory"` still
stamps requester `u1` as owner, and the only record `getExpensesFor`/
`getIncomesFor` return for `u1` is owned by `u1`. -/
theorem c10_ownership_invariant_witness :
    (addExpense "u1" smuggledOwnerBody d2024Jan1 "n1").user = "u1" ∧
      (addIncome "u1" smuggledOwnerBody d2024Jan1 "n1").user = "u1" ∧
      (applyExpenseUpdate fullUpdate ownExpense).user = ownExpense.user ∧
      ownExpense.user = "u1" := by
  have h := c10_ownership_invariant "u1" smuggledOwnerBody d2024Jan1 "n1" fullUpdate
    ownExpense [ownExpense, foreignExpense] "u1"
  refine ⟨h.1, h.2.1, h.2.2.1, ?_⟩
  exact h.2.2.2.2.1 ownExpense (by decide)

/-- C2: the claim says account deletion removes the account's Income and
Expense records.  On account A owning one income and one expense, the handler
replies success ("all associated data deleted"), the income list is empty
afterwards — but the expense record survives, because `deleteAccount` runs
`Income.deleteMany` and never touches the Expense collection. -/
theorem c2_account_deletion_leaves_expenses :
    (deleteAccount stA "A").2 = true ∧
      getIncomesFor (deleteAccount stA "A").1.incomes "A" = [] ∧
      getExpensesFor (deleteAccount stA "A").1.expenses "A" = [expenseA] := by
  decide

/-- C3 counterexample: a suspended account authenticated through the cookie
fallback is let through (`next` with the account attached), while the same
token through the bearer header is rejected — the cookie branch performs
neither the missing-account nor the suspension check the claim asserts. -/
theorem c3_cookie_path_skips_account_checks :
    suspendedUser.status = "suspended" ∧
      protect verifyFix [suspendedUser] cookieReqSusp =
        AuthOutcome.next (some (stripPassword suspendedUser)) ∧
      protect verifyFix [suspendedUser] bearerReqSusp =
        AuthOutcome.reject 401 "Account suspended. Please contact support." := by
  decide

/-- C3 (amended): on the cookie fallback the Auth Gate verifies the token and
rejects verification failures as unauthorized, but on a valid token it
attaches whatever the password-excluding account lookup returns — proceeding
even when the account is missing or suspended, unlike the bearer path. -/
theorem c3_cookie_fallback_semantics (verify : String → VerifyOutcome) (users : List User)
    (req : AuthRequest) (tok : String) (hb : hasBearerHeader req = false)
    (hc : req.cookieToken = some tok) :
    (∀ uid, verify tok = .valid uid →
      protect verify users req = .next (findByIdNoPassword users uid)) ∧
    (verify tok = .invalid →
      protect verify users req = .reject 401 "Not authorized, token failed") ∧
    (verify tok = .expired →
      protect verify users req = .reject 401 "Not authorized, token failed") := by
  refine ⟨?_, ?_, ?_⟩
  · intro uid h
    simp [protect, hb, hc, h]
  · intro h
    simp [protect, hb, hc, h]
  · intro h
    simp [protect, hb, hc, h]

/-- C3 witness: the concrete cookie requests — a valid token attaches the
lookup result, a failing token is rejected unauthorized. -/
theorem c3_cookie_fallback_semantics_witness :
    protect verifyFix [suspendedUser] cookieReqSusp =
      AuthOutcome.next (findByIdNoPassword [suspendedUser] "u1") ∧
    protect verifyFix [suspendedUser] cookieReqBad =
      AuthOutcome.reject 401 "Not authorized, token failed" := by
  have h1 := c3_cookie_fallback_semantics verifyFix [suspendedUser] cookieReqSusp "tokSusp"
    rfl rfl
  have h2 := c3_cookie_fallback_semantics verifyFix [suspendedUser] cookieReqBad "nope"
    rfl rfl
  exact ⟨h1.1 "u1" (by decide), h2.2.1 (by decide)⟩

theorem sum_map_div_mul_100 (l : List ℚ) (T : ℚ) :
    (l.map (fun x => x / T * 100)).sum = l.sum / T * 100 := by
  induction l with
  | nil => simp
  | cons x xs ih => simp [ih, add_div, add_mul]

theorem finishCategoryStats_percentage_sum (m : List (String × CatStat))
    (h : 0 < (m.map (fun e => e.2.total)).sum) :
    ((finishCategoryStats m).map (fun e => e.2.percentage)).sum = 100 := by
  have hmap : (finishCategoryStats m).map (fun e => e.2.percentage) =
      (m.map (fun e => e.2.total)).map
        (fun x => x / (m.map (fun e => e.2.total)).sum * 100) := by
    simp only [finishCategoryStats, List.map_map]
    refine List.map_congr_left ?_
    intro a _
    simp [Function.comp, h]
  rw [hmap, sum_map_div_mul_100, div_self (ne_of_gt h), one_mul]

/-- C4 counterexample: the claim says the category breakdown is sorted
descending by total, but `analyzeByCategory` returns the JS object's
insertion order — with Transport (total 1) encountered before Food (total 2)
the output is ascending. -/
theorem c4_breakdown_not_sorted :
    isSortedDescByTotal (analyzeByCategory [busTx, mealTx]) = false := by
  norm_num [analyzeByCategory, finishCategoryStats, buildCategoryMap, upsertCat,
    isSortedDescByTotal, busTx, mealTx]

/-- C4 (amended): `analyzeByCategory` returns the category entries in
first-encounter order (not sorted by total); the empty input yields an empty
map, every percentage is `0` when the grand total is `0`, and the
percentages sum to exactly `100` whenever the grand total is positive. -/
theorem c4_breakdown_semantics (txs : List TxRec) :
    analyzeByCategory ([] : List TxRec) = [] ∧
    (catGrandTotal txs = 0 → ∀ e ∈ analyzeByCategory txs, e.2.percentage = 0) ∧
    (0 < catGrandTotal txs →
      ((analyzeByCategory txs).map (fun e => e.2.percentage)).sum = 100) := by
  refine ⟨rfl, ?_, ?_⟩
  · intro h e he
    simp only [analyzeByCategory, finishCategoryStats] at he
    rcases List.mem_map.mp he with ⟨a, _, rfl⟩
    simp only [catGrandTotal] at h
    simp [h]
  · intro h
    simp only [catGrandTotal] at h
    exact finishCategoryStats_percentage_sum (buildCategoryMap txs) h

/-- C4 witness: the empty breakdown, a zero-total breakdown entry with
percentage 0, and the two-category breakdown whose percentages sum to 100. -/
theorem c4_breakdown_semantics_witness :
    analyzeByCategory ([] : List TxRec) = [] ∧
      (("Food", (⟨0, 1, 0, 0⟩ : CatStat)).2.percentage = 0) ∧
      ((analyzeByCategory [busTx, mealTx]).map (fun e => e.2.percentage)).sum = 100 := by
  refine ⟨(c4_breakdown_semantics []).1, ?_, ?_⟩
  · exact (c4_breakdown_semantics [freeTx]).2.1
      (by simp [catGrandTotal, buildCategoryMap, upsertCat, freeTx])
      ("Food", ⟨0, 1, 0, 0⟩)
      (by simp [analyzeByCategory, finishCategoryStats, buildCategoryMap, upsertCat, freeTx])
  · refine (c4_breakdown_semantics [busTx, mealTx]).2.2 ?_
    simp [catGrandTotal, buildCategoryMap, upsertCat, busTx, mealTx]
    norm_num

/-- C6: for every metrics input with savings rate below 10 (in particular
5%), `generateSavingTips` emits the HIGH-priority "Build Emergency Fund"
(increase-savings) rule; at a 25% savings rate that rule is absent from the
output. -/
theorem c6_low_savings_rate_rule (fd : FinancialData) :
    (fd.savingsRate < 10 →
      ∃ t ∈ generateSavingTips fd, t.title = "Build Emergency Fund" ∧ t.priority = "HIGH") ∧
    (fd.savingsRate = 25 →
      ∀ t ∈ generateSavingTips fd, t.title ≠ "Build Emergency Fund") := by
  constructor
  · intro h
    refine ⟨savingBuildEmergencyFundTip fd.savingsRate, ?_, rfl, rfl⟩
    simp [generateSavingTips, h]
  · intro h t ht
    have h1 : ¬ (fd.savingsRate < 10) := by rw [h]; norm_num
    have h2 : ¬ (10 ≤ fd.savingsRate ∧ fd.savingsRate < 20) := by rw [h]; norm_num
    have h3 : fd.savingsRate ≥ 20 := by rw [h]; norm_num
    simp only [generateSavingTips, if_neg h1, if_neg h2, if_pos h3, List.nil_append,
      List.mem_append, List.mem_singleton] at ht
    rcases ht with rfl | ht
    · decide
    · split at ht <;> split at ht <;> simp_all [savingStrengthenEmergencyFundTip]

/-- C6 witness: at the concrete 5% metrics the rule is emitted; at the
concrete 25% metrics it is not. -/
theorem c6_low_savings_rate_rule_witness :
    (∃ t ∈ generateSavingTips fdLowSavings,
      t.title = "Build Emergency Fund" ∧ t.priority = "HIGH") ∧
    (∀ t ∈ generateSavingTips fdHighSavings, t.title ≠ "Build Emergency Fund") :=
  ⟨(c6_low_savings_rate_rule fdLowSavings).1 (by norm_num [fdLowSavings]),
    (c6_low_savings_rate_rule fdHighSavings).2 (by norm_num [fdHighSavings])⟩

/-- C7 counterexample: the claim says the collected tip list returned to the
caller holds at most 5 entries, but the default (no category) arm of
`getPersonalizedTips` concatenates the three generators' outputs with no
overall cap — on this input it returns 6 tips. -/
theorem c7_default_tips_exceed_cap :
    (getPersonalizedTips none [gigIncome] [oldMeal] nowJun15 cutoffJun8).length = 6 := by
  have hInc : analyzeByCategory [gigIncome] = [("Other", ⟨10000, 1, 10000, 100⟩)] := by
    simp [analyzeByCategory, finishCategoryStats, buildCategoryMap, upsertCat, gigIncome]
  have hExp : analyzeByCategory [oldMeal] = [("Food", ⟨100, 1, 100, 100⟩)] := by
    simp [analyzeByCategory, finishCategoryStats, buildCategoryMap, upsertCat, oldMeal]
  have hfd : calculateFinancialMetrics [gigIncome] [oldMeal] nowJun15 = fdJun := by
    simp only [calculateFinancialMetrics]
    rw [hInc, hExp]
    simp [gigIncome, oldMeal, nowJun15, fdJun]
    norm_num
  have h1 : (generateIncomeTips fdJun [gigIncome]).length = 4 := by
    simp [generateIncomeTips, lookupCat, fdJun,
      show (0:ℚ) < 10000 from by norm_num, show (1000:ℚ) < 9900 from by norm_num]
  have h2 : (generateExpenseTips fdJun [oldMeal] cutoffJun8).length = 1 := by
    simp [generateExpenseTips, strContains, sortByDateDesc, insertByDateDesc, dateLt,
      fdJun, oldMeal, cutoffJun8, show (30:ℚ) < 100 from by norm_num]
  have h3 : (generateSavingTips fdJun).length = 1 := by
    simp [generateSavingTips, fdJun,
      show ¬ ((99:ℚ) < 10) from by norm_num, show ¬ ((99:ℚ) < 20) from by norm_num,
      show (20:ℚ) ≤ 99 from by norm_num,
      show ¬ ((9900:ℚ) < 100 / 12 * 3) from by norm_num]
  simp [getPersonalizedTips, hfd, h1, h2, h3]

/-- C7 (amended): rules are evaluated independently and matches collected in
encounter order; the income and expense tip lists are each truncated to at
most 5 entries, the saving-tip list is returned untruncated (it never exceeds
2 entries since the three savings-rate ranges are mutually exclusive), a
specific category request returns the corresponding single list, and the
default request returns the untruncated concatenation of all three lists,
which can exceed 5 entries. -/
theorem c7_tip_collection_semantics (fd : FinancialData) (incomes expenses : List TxRec)
    (now recentCutoff : Date) :
    (generateIncomeTips fd incomes).length ≤ 5 ∧
    (generateExpenseTips fd expenses recentCutoff).length ≤ 5 ∧
    (generateSavingTips fd).length ≤ 2 ∧
    getPersonalizedTips (some "income") incomes expenses now recentCutoff =
      generateIncomeTips (calculateFinancialMetrics incomes expenses now) incomes ∧
    getPersonalizedTips (some "expense") incomes expenses now recentCutoff =
      generateExpenseTips (calculateFinancialMetrics incomes expenses now) expenses
        recentCutoff ∧
    getPersonalizedTips (some "saving") incomes expenses now recentCutoff =
      generateSavingTips (calculateFinancialMetrics incomes expenses now) ∧
    getPersonalizedTips none incomes expenses now recentCutoff =
      generateIncomeTips (calculateFinancialMetrics incomes expenses now) incomes ++
        generateExpenseTips (calculateFinancialMetrics incomes expenses now) expenses
          recentCutoff ++
        generateSavingTips (calculateFinancialMetrics incomes expenses now) := by
  refine ⟨?_, ?_, ?_, rfl, rfl, rfl, rfl⟩
  · simp only [generateIncomeTips, List.length_take]
    exact min_le_left _ _
  · simp only [generateExpenseTips, List.length_take]
    exact min_le_left _ _
  · rcases lt_or_le fd.savingsRate 10 with h1 | h1
    · have h2 : ¬ (10 ≤ fd.savingsRate ∧ fd.savingsRate < 20) := fun hx =>
        absurd h1 (not_lt.mpr hx.1)
      have h3 : ¬ (fd.savingsRate ≥ 20) := by
        intro hx
        exact absurd h1 (not_lt.mpr (by linarith))
      simp [generateSavingTips, h1, h2, h3]
      split_ifs <;> simp
    · rcases lt_or_le fd.savingsRate 20 with h2 | h2
      · have hA : ¬ (fd.savingsRate < 10) := not_lt.mpr h1
        have hB : 10 ≤ fd.savingsRate ∧ fd.savingsRate < 20 := ⟨h1, h2⟩
        have hC : ¬ (fd.savingsRate ≥ 20) := not_le.mpr h2
        simp [generateSavingTips, hA, hB, hC]
        split_ifs <;> simp
      · have hA : ¬ (fd.savingsRate < 10) := not_lt.mpr (by linarith)
        have hB : ¬ (10 ≤ fd.savingsRate ∧ fd.savingsRate < 20) := fun hx =>
          absurd h2 (not_le.mpr hx.2)
        have hC : fd.savingsRate ≥ 20 := h2
        simp [generateSavingTips, hA, hB, hC]
        split_ifs <;> simp

/-- C8: the insights generator returns the deterministic rule-based fallback
text whenever the external text-generation call throws, and also whenever no
external API key (OpenAI or Gemini) is configured — the external call is
never the sole source of a response and its failure is absorbed rather than
surfaced. -/
theorem c8_external_call_degrades_to_fallback (cfg : AIConfig) (r : ExtCallOutcome)
    (ad : AnalysisData)
    (h : r = ExtCallOutcome.fail ∨ (cfg.openaiKey = false ∧ cfg.geminiKey = false)) :
    generateAIInsights cfg r ad = generateFallbackInsights ad := by
  rcases h with rfl | ⟨h1, h2⟩
  · simp only [generateAIInsights]
    split_ifs <;> rfl
  · simp [generateAIInsights, h1, h2]

/-- C8 witness: with an OpenAI key configured and a failing call, the
concrete analysis payload degrades to the fallback text. -/
theorem c8_external_call_degrades_to_fallback_witness :
    generateAIInsights ⟨true, false⟩ ExtCallOutcome.fail adFix =
      generateFallbackInsights adFix :=
  c8_external_call_degrades_to_fallback ⟨true, false⟩ ExtCallOutcome.fail adFix (Or.inl rfl)

theorem register_created_inversion (users : List User) (b : RegBody) (newId : String)
    (u : User) (users2 : List User)
    (h : register users b newId = (RegResult.created u, users2)) :
    users2 = users ++ [u] ∧ u.email = jsTrim (jsToLower (b.email.getD "")) := by
  unfold register at h
  split_ifs at h <;> try simp_all
  split at h
  · simp_all
  · simp only [Prod.mk.injEq, RegResult.created.injEq] at h
    obtain ⟨hu, hl⟩ := h
    subst hu
    exact ⟨hl.symm, rfl⟩

/-- C9: after a successful registration, a second registration whose email is
the same under any letter-case variation (equal after lower-casing and
trimming) and which passes the field validations fails with the
duplicate-email Conflict reply and leaves the account collection unchanged. -/
theorem c9_duplicate_email_conflict (users users2 : List User) (b b2 : RegBody)
    (u : User) (newId newId2 : String) (e2 : String)
    (h1 : register users b newId = (RegResult.created u, users2))
    (hmail : b2.email = some e2)
    (hcase : jsTrim (jsToLower e2) = jsTrim (jsToLower (b.email.getD "")))
    (hf : blankOpt b2.firstName = false)
    (hl : blankOpt b2.lastName = false)
    (he : blankOpt b2.email = false)
    (hv : emailValid (jsTrim e2) = true)
    (hp : falsyStr b2.password = false)
    (hc : falsyStr b2.confirmPassword = false)
    (hlen : ¬ (b2.password.getD "").length < 6)
    (heq : b2.password = b2.confirmPassword) :
    register users2 b2 newId2 = (RegResult.conflict, users2) := by
  obtain ⟨husers2, humail⟩ := register_created_inversion users b newId u users2 h1
  have hany : users2.any (fun v => v.email == jsTrim (jsToLower e2)) = true := by
    apply List.any_eq_true.mpr
    refine ⟨u, ?_, ?_⟩
    · rw [husers2]; simp
    · simp [humail, hcase]
  have he2 : blankOpt (some e2) = false := by rw [← hmail]; exact he
  have hlen2 : ¬ (b2.confirmPassword.getD "").length < 6 := by rw [← heq]; exact hlen
  simp [register, hf, hl, he, hmail, hv, hp, hc, hlen, heq, hany, he2, hlen2]

/-- C9 witness: registering `User@Example.com`, then registering
`uSER@EXAMPLE.COM`, hits the Conflict reply with the collection unchanged. -/
theorem c9_duplicate_email_conflict_witness :
    register [createdA] regBodyB "id2" = (RegResult.conflict, [createdA]) := by
  have h1 : register [] regBodyA "id1" = (RegResult.created createdA, [createdA]) := by
    decide
  exact c9_duplicate_email_conflict [] [createdA] regBodyA regBodyB createdA "id1" "id2"
    "uSER@EXAMPLE.COM" h1 rfl (by decide) rfl rfl rfl (by decide) rfl rfl (by decide) rfl

end ExpenseTracker
